import Mathlib

/-!
Shallow embedding of the LayerSprite paint/compositing engine
(src/rendering/canvas-elements/layer-sprite.js) of the bitmappery repository.

JS numbers are modelled as rationals, surfaces carry an abstract pixel-content
counter, and the single-threaded host environment (outstanding timeouts, the
history log) is modelled as an explicit `World` record threaded through the
operations. Collaborators that are not among the shown sources (math helpers,
the low-resolution renderer, the brush factory) are modelled from the spec and
marked as such in their doc comments.
-/

namespace Bitmappery

/-- A 2D point with rational coordinates (JS numbers modelled as rationals). -/
structure Point where
  x : ℚ
  y : ℚ
deriving Repr, DecidableEq

/-- Tool identifiers (definitions/tool-types). -/
inductive Tool
  | drag
  | fill
  | eraser
  | brush
  | clone
  | eyedropper
deriving Repr, DecidableEq

/-- Layer kind (definitions/layer-types). -/
inductive LayerType
  | graphic
  | text
  | mask
  | image
deriving Repr, DecidableEq

/-- Layer effects record. The rotation angle (degrees) is carried together with
exact rational stand-ins for its cosine and sine, because the code only ever
uses the angle through its cosine/sine (inside translatePointerRotation) and
through the test `rotation % 360 !== 0`. -/
structure Effects where
  rotation : ℚ
  rotCos : ℚ
  rotSin : ℚ
  mirrorX : Bool
  mirrorY : Bool
  scale : ℚ
deriving Repr, DecidableEq

/-- A raster surface (an HTMLCanvasElement). `hasCtx` models whether
getContext("2d") yields a live 2D context (false for a disposed or
context-less canvas); `content` abstracts the pixel contents, and the
canvasToBlob/blobToResource encoding of the contents is modelled as this
counter itself. -/
structure Surface where
  width : ℚ
  height : ℚ
  hasCtx : Bool
  content : ℕ
deriving Repr, DecidableEq

/-- The Layer model owned by the document. `selectionDrawable` backs the
canDrawOnSelection collaborator, see `canDrawOnSelection`. -/
structure Layer where
  id : ℕ
  type : LayerType
  x : ℚ
  y : ℚ
  width : ℚ
  height : ℚ
  source : Option Surface
  mask : Option Surface
  maskX : ℚ
  maskY : ℚ
  effects : Effects
  selectionDrawable : Bool
deriving Repr, DecidableEq

/-- Modelled from the spec: canDrawOnSelection (definitions/tool-types, not
among the shown sources) decides whether a layer permits
selection-constrained drawing; it is carried as an abstract boolean on the
layer. -/
def canDrawOnSelection (l : Layer) : Bool :=
  l.selectionDrawable

/-- Modelled from the spec: a selection (document model, not among the shown
sources) is an ordered point sequence together with a closed marker. -/
structure Selection where
  points : List Point
  closed : Bool
deriving Repr, DecidableEq

/-- Modelled from the spec: isSelectionClosed (math/selection-math, not among
the shown sources) — a selection is usable for clipping only if its point
sequence is non-empty and marked closed. -/
def isSelectionClosed : Option Selection → Bool
  | none => false
  | some s => !s.points.isEmpty && s.closed

/-- The brush record (factories/brush-factory): the pressed flag, the cursor
marking how many recorded points have already been rendered, and the ordered
recorded pointer list. Colour and radius play no role in the verified
properties and are omitted. -/
structure Brush where
  down : Bool
  last : ℕ
  pointers : List Point
deriving Repr, DecidableEq

/-- Tool options as used by the clone stamp: the source coordinate (unset
until the first press) and the source layer id. -/
structure ToolOptions where
  coords : Option Point
  sourceLayerId : ℕ
deriving Repr, DecidableEq

/-- The zCanvas sprite bounds rectangle (external base class, specified at the
interface: get/set bounds). -/
structure Bounds where
  left : ℚ
  top : ℚ
  width : ℚ
  height : ℚ
deriving Repr, DecidableEq

/-- The mask/source action target set through setActionTarget. -/
inductive ActionTarget
  | source
  | mask
deriving Repr, DecidableEq

/-- The mutable per-sprite state of a LayerSprite instance. -/
structure SpriteState where
  layer : Layer
  bounds : Bounds
  actionTarget : ActionTarget
  brush : Brush
  selection : Option Selection
  toolType : Option Tool
  toolOptions : Option ToolOptions
  cloneStartCoords : Option Point
  isPaintMode : Bool
  isDragMode : Bool
  isColorPicker : Bool
  isDragging : Bool
  interactive : Bool
  draggable : Bool
  pointerX : ℚ
  pointerY : ℚ
  dragStartOffset : Point
  dragStartEventCoordinates : Point
  tempCanvas : Bool
  pendingPaintState : Option ℕ
  orgSourceToStore : Option ℕ
deriving Repr, DecidableEq

/-- An outstanding host timeout (setTimeout handle): its id and its absolute
deadline. -/
structure Timer where
  id : ℕ
  deadline : ℚ
deriving Repr, DecidableEq

/-- A history entry (factories/history-state-factory enqueueState). The undo
and redo closures are embedded as the data they capture. -/
inductive HistoryEntry
  | paintState (layerId : ℕ) (orgState : Option ℕ) (newState : ℕ)
  | spritePos (layerId : ℕ) (undoLeft undoTop undoLayerX undoLayerY : ℚ)
      (redoLeft redoTop redoLayerX redoLayerY : ℚ)
deriving Repr, DecidableEq

/-- The single-threaded host world: current time, outstanding timeouts and the
history log. -/
structure World where
  now : ℚ
  nextTimerId : ℕ
  timers : List Timer
  history : List HistoryEntry
deriving Repr, DecidableEq

/-! ### Simple sprite operations -/

/-- setActionTarget. -/
def setActionTarget (s : SpriteState) (target : ActionTarget) : SpriteState :=
  { s with actionTarget := target }

/-- isMaskable: the layer has a mask surface. -/
def isMaskable (s : SpriteState) : Bool :=
  s.layer.mask.isSome

/-- isDrawable. -/
def isDrawable (s : SpriteState) : Bool :=
  s.layer.type = LayerType.graphic || isMaskable s

/-- Truncation of a rational towards zero, as JS division-then-truncation. -/
def ratTrunc (q : ℚ) : ℤ :=
  if 0 ≤ q then ⌊q⌋ else -⌊-q⌋

/-- The JS remainder operator on numbers (sign of the dividend). -/
def jsMod (a n : ℚ) : ℚ :=
  a - n * (ratTrunc (a / n) : ℚ)

/-- isRotated: rotation modulo 360 is non-zero. -/
def isRotated (s : SpriteState) : Bool :=
  jsMod s.layer.effects.rotation 360 ≠ 0

/-- isScaled. -/
def isScaled (s : SpriteState) : Bool :=
  s.layer.effects.scale ≠ 1

/-- storeBrushPointer: mark the brush pressed and append the point. -/
def storeBrushPointer (s : SpriteState) (x y : ℚ) : SpriteState :=
  { s with brush := { s.brush with down := true,
                                   pointers := s.brush.pointers ++ [⟨x, y⟩] } }

/-- setSelection: the selection is stored only when it is closed and the layer
permits selection-constrained drawing. -/
def setSelection (s : SpriteState) (sel : Option Selection) : SpriteState :=
  if isSelectionClosed sel && canDrawOnSelection s.layer then
    { s with selection := sel }
  else
    s

/-- resetSelection. -/
def resetSelection (s : SpriteState) : SpriteState :=
  { s with selection := none }

/-- forceMoveListener: fakes a drag so zCanvas keeps delivering move events. -/
def forceMoveListener (s : SpriteState) : SpriteState :=
  { s with isDragging := true,
           dragStartOffset := ⟨s.bounds.left, s.bounds.top⟩,
           dragStartEventCoordinates := ⟨s.pointerX, s.pointerY⟩ }

/-! ### The math collaborators used when transforming pointer lists -/

/-- Modelled from the spec: translatePointerRotation (math/point-math, not
among the shown sources) rotates the point (x, y) about the centre (cX, cY);
the cosine and sine of the rotation angle are taken as exact rational
inputs. -/
def translatePointerRotation (x y cX cY cosR sinR : ℚ) : Point :=
  ⟨cX + (x - cX) * cosR - (y - cY) * sinR,
   cY + (x - cX) * sinR + (y - cY) * cosR⟩

/-- The per-point body of rotatePointerLists: translate against the layer
position, rotate about the half-dimension centre of the source surface, then
subtract the full surface dimension on each mirrored axis. -/
def rotatePointerPoint (l : Layer) (sourceWidth sourceHeight : ℚ)
    (point : Point) : Point :=
  let p := translatePointerRotation (point.x - l.x) (point.y - l.y)
      (sourceWidth * (1 / 2)) (sourceHeight * (1 / 2))
      l.effects.rotCos l.effects.rotSin
  let p := if l.effects.mirrorX then { p with x := p.x - sourceWidth } else p
  let p := if l.effects.mirrorY then { p with y := p.y - sourceHeight } else p
  p

/-- rotatePointerLists: bulk transform of a recorded pointer list into the
(rotated, mirrored) layer-local space. The JS mutates the given list in
place; the embedding returns the transformed list. -/
def rotatePointerLists (pointers : List Point) (l : Layer)
    (sourceWidth sourceHeight : ℚ) : List Point :=
  pointers.map (rotatePointerPoint l sourceWidth sourceHeight)

/-! ### The debounced history snapshot cycle -/

/-- debouncePaintStore: arm a host timeout that will run storePaintState, and
remember its handle in `_pendingPaintState`. -/
def debouncePaintStore (timeout : ℚ) (w : World) (s : SpriteState) :
    World × SpriteState :=
  (⟨w.now, w.nextTimerId + 1,
    w.timers ++ [⟨w.nextTimerId, w.now + timeout⟩], w.history⟩,
   { s with pendingPaintState := some w.nextTimerId })

/-- preparePendingPaintState: encode the pre-edit source contents (the
asynchronous canvasToBlob/blobToResource chain is modelled synchronously as
reading the abstract content counter) and arm the 5000 ms debounce. -/
def preparePendingPaintState (w : World) (s : SpriteState) :
    World × SpriteState :=
  debouncePaintStore 5000 w
    { s with orgSourceToStore := s.layer.source.map Surface.content }

/-- storePaintState. The asynchronous canvasToBlob().then(...) tail that
appends the history entry and resolves to true is modelled synchronously;
the boolean is the JS return value (the resolved value on the committing
path). A missing layer source makes the encode fail, aborting the cycle
without appending an entry. -/
def storePaintState (w : World) (s : SpriteState) :
    Bool × World × SpriteState :=
  match s.pendingPaintState with
  | none => (true, w, s)
  | some tid =>
    let w1 : World := ⟨w.now, w.nextTimerId,
      w.timers.filter (fun t => t.id ≠ tid), w.history⟩
    if s.brush.down then
      let ws := debouncePaintStore 1000 w1 s
      (false, ws.1, ws.2)
    else
      let orgState := s.orgSourceToStore
      let s1 := { s with pendingPaintState := none, orgSourceToStore := none }
      match s1.layer.source with
      | none => (false, w1, s1)
      | some src =>
        (true,
         ⟨w1.now, w1.nextTimerId, w1.timers,
          w1.history ++ [HistoryEntry.paintState s1.layer.id orgState src.content]⟩,
         s1)

/-! ### The paint compositor -/

/-- The surface a paint() call draws on. -/
inductive PaintTarget
  | source
  | mask
deriving Repr, DecidableEq

/-- Observable effects of one paint() call that do not live in the sprite or
world state: which surface supplied the drawing context, whether the eraser
composite mode was applied, whether the selection clip was established,
which pointer points the stroke renderer consumed, whether rendering was
redirected to the low-resolution scratch surface, and whether the filter
recache was triggered. -/
structure PaintLog where
  target : PaintTarget
  eraserComposite : Bool
  clipped : Bool
  consumed : List Point
  lowRes : Bool
  recached : Bool
deriving Repr, DecidableEq

/-- A thrown JS error, carrying the world and sprite state at throw time. -/
inductive JsError
  | missingSurface (w : World) (s : SpriteState)
  | missingContext (w : World) (s : SpriteState)
  | missingToolOptions (w : World) (s : SpriteState)
deriving Repr, DecidableEq

/-- Modelled from the spec: slicePointers (rendering/lowres, not among the
shown sources) drains the unrendered tail of the brush pointer list: the
points recorded since the `last` cursor. -/
def slicePointers (b : Brush) : List Point :=
  b.pointers.drop b.last

/-- Modelled from the spec: the pointer points renderBrushStroke
(rendering/drawing, not among the shown sources) consumes — the override
configuration's already-sliced pointer list when one is supplied (the
low-resolution live path), otherwise the brush pointers the `last` cursor
has not yet consumed. -/
def renderBrushStrokePoints (b : Brush) (overrides : Option (List Point)) :
    List Point :=
  match overrides with
  | some pts => pts
  | none => b.pointers.drop b.last

/-- Increment the abstract content counter of a surface (a full-resolution
draw happened on it). -/
def bumpSurface (surf : Surface) : Surface :=
  { surf with content := surf.content + 1 }

/-- Record a full-resolution draw on the chosen target surface of the layer. -/
def bumpTarget (drawOnMask : Bool) (s : SpriteState) : SpriteState :=
  if drawOnMask then
    { s with layer := { s.layer with mask := s.layer.mask.map bumpSurface } }
  else
    { s with layer := { s.layer with source := s.layer.source.map bumpSurface } }

/-- The surface paint() takes its drawing context from: the mask when the
layer is maskable, otherwise the source (the action target is not
consulted). -/
def paintTargetSurface (s : SpriteState) : Option Surface :=
  if isMaskable s then s.layer.mask else s.layer.source

/-- The body of paint() after the pending-paint-state preparation: pick the
drawing context (a missing surface or context throws, as the JS dereference
does), establish composite mode / clip / mirror transform, dispatch on the
tool, and trigger the filter recache unless a stroke is still active. -/
def paintCore (w : World) (s : SpriteState) :
    Except JsError (World × SpriteState × PaintLog) :=
  let drawOnMask := isMaskable s
  let isEraser := s.toolType = some Tool.eraser
  let isCloneStamp := s.toolType = some Tool.clone
  let isFillMode := s.toolType = some Tool.fill
  match paintTargetSurface s with
  | none => Except.error (JsError.missingSurface w s)
  | some surf =>
    if !surf.hasCtx then Except.error (JsError.missingContext w s)
    else
      let width := surf.width
      let height := surf.height
      let clipped := s.selection.isSome
      let target := if drawOnMask then PaintTarget.mask else PaintTarget.source
      if isFillMode then
        Except.ok (w, bumpTarget drawOnMask s,
          ⟨target, isEraser, clipped, [], false, !s.brush.down⟩)
      else
        let pointers := slicePointers s.brush
        if isCloneStamp then
          if s.brush.down then
            Except.ok (w, bumpTarget drawOnMask s,
              ⟨target, isEraser, clipped,
               rotatePointerLists pointers s.layer width height, false,
               !s.brush.down⟩)
          else
            Except.ok (w, s,
              ⟨target, isEraser, clipped, [], false, !s.brush.down⟩)
        else
          if s.brush.down then
            Except.ok (w, { s with tempCanvas := true },
              ⟨target, isEraser, clipped,
               renderBrushStrokePoints s.brush (some pointers), true, false⟩)
          else
            let rotated := rotatePointerLists s.brush.pointers s.layer width height
            let s1 := { s with brush := { s.brush with pointers := rotated } }
            Except.ok (w, bumpTarget drawOnMask s1,
              ⟨target, isEraser, clipped,
               renderBrushStrokePoints s1.brush none, false, true⟩)

/-- paint(): when no snapshot cycle is pending, prepare one first; then run
the compositor body. -/
def paint (w : World) (s : SpriteState) :
    Except JsError (World × SpriteState × PaintLog) :=
  if s.pendingPaintState.isNone then
    paintCore (preparePendingPaintState w s).1 (preparePendingPaintState w s).2
  else
    paintCore w s

/-! ### Pointer handlers, the frame tick and setBounds -/

/-- Discriminator of the DOM pointer event type. -/
inductive PtrEventType
  | mouse
  | touch
deriving Repr, DecidableEq

/-- The tail of handleRelease after the final full-resolution render: clear
the consumed pointer list, commit the pending paint state immediately unless
the host runs in lowMemory mode, and keep the move listener active while in
paint mode. -/
def handleReleaseTail (lowMemory : Bool) (w2 : World) (s2 : SpriteState)
    (log : PaintLog) : World × SpriteState × Option PaintLog :=
  let s3 := { s2 with brush := { s2.brush with pointers := [] } }
  let ws4 := if !lowMemory then
      let r := storePaintState w2 s3
      (r.2.1, r.2.2)
    else (w2, s3)
  let s5 := if ws4.2.isPaintMode then forceMoveListener ws4.2 else ws4.2
  (ws4.1, s5, some log)

/-- handleRelease: when a stroke was active, dispose the low-resolution
scratch surface, deactivate the brush, reset the `last` cursor, render the
full-resolution stroke, and run the release tail (clear the pointer list and
commit the pending paint history state unless in lowMemory mode). -/
def handleRelease (lowMemory : Bool) (w : World) (s : SpriteState) :
    Except JsError (World × SpriteState × Option PaintLog) :=
  if s.brush.down then
    (paint w { s with tempCanvas := false,
                      brush := { s.brush with down := false, last := 0 } }).map
      (fun r => handleReleaseTail lowMemory r.1 r.2.1 r.2.2)
  else
    Except.ok (w, (if s.isPaintMode then forceMoveListener s else s), none)

/-- handlePress: color picking commits to the external store only; in paint
mode the clone tool first captures its source coordinate, a later press sets
the clone start coordinates and (like every non-fill paint tool) records the
brush pointer; the fill tool paints synchronously. -/
def handlePress (w : World) (s : SpriteState) (x y : ℚ) (etype : PtrEventType) :
    Except JsError (World × SpriteState × Option PaintLog) :=
  let s := if etype = PtrEventType.touch then { s with pointerX := x, pointerY := y }
           else s
  if s.isColorPicker then
    Except.ok (w, s, none)
  else if s.isPaintMode then
    if s.toolType = some Tool.clone then
      match s.toolOptions with
      | none => Except.error (JsError.missingToolOptions w s)
      | some opts =>
        if opts.coords.isNone then
          Except.ok (w,
            { s with toolOptions := some { opts with coords := some ⟨x, y⟩ } },
            none)
        else
          let s1 := if s.cloneStartCoords.isNone
                    then { s with cloneStartCoords := some ⟨x, y⟩ } else s
          Except.ok (w, storeBrushPointer s1 x y, none)
    else if s.toolType = some Tool.fill then
      match paint w s with
      | Except.error e => Except.error e
      | Except.ok (w1, s1, log) => Except.ok (w1, s1, some log)
    else
      Except.ok (w, storeBrushPointer s x y, none)
  else
    Except.ok (w, s, none)

/-- handleMove: track the pointer, move the mask when mask-dragging, defer to
the external zCanvas drag behaviour in drag mode (out of scope, modelled as
returning unchanged), and enqueue the pointer while brushing is active. -/
def handleMove (s : SpriteState) (x y : ℚ) (etype : PtrEventType) :
    SpriteState :=
  let s := if etype = PtrEventType.touch then s
           else { s with pointerX := x, pointerY := y }
  if !s.isPaintMode && s.actionTarget ≠ ActionTarget.mask && s.isDragMode then
    s
  else
    let s :=
      if !s.isPaintMode && s.actionTarget = ActionTarget.mask then
        { s with layer := { s.layer with
            maskX := s.dragStartOffset.x +
              ((x - s.bounds.left) - s.dragStartEventCoordinates.x),
            maskY := s.dragStartOffset.y +
              ((y - s.bounds.top) - s.dragStartEventCoordinates.y) } }
      else s
    if s.brush.down then storeBrushPointer s x y else s

/-- update (the per-frame tick): while brushing, paint the enqueued pointers
and advance the `last` cursor to the end of the pointer list. -/
def update (w : World) (s : SpriteState) :
    Except JsError (World × SpriteState × Option PaintLog) :=
  if s.brush.down then
    match paint w s with
    | Except.error e => Except.error e
    | Except.ok (w1, s1, log) =>
      Except.ok (w1,
        { s1 with brush := { s1.brush with last := s1.brush.pointers.length } },
        some log)
  else
    Except.ok (w, s, none)

/-- setBounds: a zero width or height keeps the previous dimensions; the
zCanvas base (external, specified at the interface) assigns the rectangle to
the bounds; the layer position advances by the relative offset and one
position history entry is enqueued. -/
def setBounds (w : World) (s : SpriteState) (x y width height : ℚ) :
    World × SpriteState :=
  let left := s.bounds.left
  let top := s.bounds.top
  let oldLayerX := s.layer.x
  let oldLayerY := s.layer.y
  let wh : ℚ × ℚ := if width = 0 ∨ height = 0
                    then (s.bounds.width, s.bounds.height)
                    else (width, height)
  let bounds : Bounds := ⟨x, y, wh.1, wh.2⟩
  let newX := bounds.left
  let newY := bounds.top
  let newLayerX := oldLayerX + (newX - left)
  let newLayerY := oldLayerY + (newY - top)
  (⟨w.now, w.nextTimerId, w.timers,
    w.history ++ [HistoryEntry.spritePos s.layer.id left top oldLayerX oldLayerY
      newX newY newLayerX newLayerY]⟩,
   { s with bounds := bounds,
            layer := { s.layer with x := newLayerX, y := newLayerY } })

/-- The effect of running a spritePos entry's undo closure on the live sprite
of its layer: positionSpriteFromHistory restores the stored bounds offset and
the closure restores the stored layer position. Other entry kinds leave the
sprite untouched. -/
def runSpritePosUndo (e : HistoryEntry) (s : SpriteState) : SpriteState :=
  match e with
  | HistoryEntry.spritePos _ ul ut ulx uly _ _ _ _ =>
      { s with bounds := { s.bounds with left := ul, top := ut },
               layer := { s.layer with x := ulx, y := uly } }
  | _ => s

/-- The effect of running a spritePos entry's redo closure, symmetric to
`runSpritePosUndo`. -/
def runSpritePosRedo (e : HistoryEntry) (s : SpriteState) : SpriteState :=
  match e with
  | HistoryEntry.spritePos _ _ _ _ _ rl rt rlx rly =>
      { s with bounds := { s.bounds with left := rl, top := rt },
               layer := { s.layer with x := rlx, y := rly } }
  | _ => s

/-- Modelled from the spec: BrushFactory.create (factories/brush-factory, not
among the shown sources) returns a fresh (not pressed, cursor reset) brush;
cacheBrush carries the previous brush's recorded pointers over into it. -/
def cacheBrush (s : SpriteState) : SpriteState :=
  { s with brush := ⟨false, 0, s.brush.pointers⟩ }

/-- handleActiveTool: reset the interaction mode, flush any pending paint
state, then configure the sprite for the newly selected tool. -/
def handleActiveTool (w : World) (s : SpriteState) (tool : Option Tool)
    (toolOptions : Option ToolOptions) (docSelection : Option Selection) :
    World × SpriteState :=
  let s := { s with isDragging := false, isPaintMode := false,
                    isDragMode := false, isColorPicker := false,
                    selection := none, toolType := none, toolOptions := none,
                    cloneStartCoords := none }
  let r := storePaintState w s
  let w1 := r.2.1
  let s1 := r.2.2
  if !s1.interactive || tool.isNone then (w1, s1)
  else
    match tool with
    | none => (w1, s1)
    | some t =>
      let s2 := { s1 with toolType := some t, toolOptions := toolOptions }
      match t with
      | Tool.drag => (w1, { s2 with isDragMode := true, draggable := true })
      | Tool.fill | Tool.eraser | Tool.brush | Tool.clone =>
        let s3 := forceMoveListener s2
        let s4 := cacheBrush { s3 with draggable := true, isPaintMode := true }
        (w1, setSelection s4 docSelection)
      | Tool.eyedropper => (w1, { s2 with isColorPicker := true })

/-! ### Concrete fixtures for the witnesses and counterexamples -/

/-- A live 100 by 100 surface. -/
def surfA : Surface := ⟨100, 100, true, 10⟩

/-- A live 100 by 100 mask surface. -/
def surfMask : Surface := ⟨100, 100, true, 20⟩

/-- A disposed surface: getContext yields no live 2D context. -/
def surfDead : Surface := ⟨100, 100, false, 0⟩

/-- Identity effects: no rotation (cosine 1, sine 0), no mirror, unit scale. -/
def fxId : Effects := ⟨0, 1, 0, false, false, 1⟩

/-- Identity effects with mirrorX active. -/
def fxMirX : Effects := ⟨0, 1, 0, true, false, 1⟩

/-- An unrotated, unmirrored graphic layer at the origin. -/
def layerA : Layer :=
  ⟨1, LayerType.graphic, 0, 0, 100, 100, some surfA, none, 0, 0, fxId, true⟩

/-- A graphic layer at the origin with mirrorX active. -/
def layerMirX : Layer :=
  ⟨2, LayerType.graphic, 0, 0, 100, 100, some surfA, none, 0, 0, fxMirX, true⟩

/-- A maskable layer: both a source and a mask surface are present. -/
def layerMasked : Layer :=
  ⟨3, LayerType.graphic, 0, 0, 100, 100, some surfA, some surfMask, 0, 0, fxId, true⟩

/-- A layer whose source surface has no live 2D context. -/
def layerDead : Layer :=
  ⟨4, LayerType.graphic, 0, 0, 100, 100, some surfDead, none, 0, 0, fxId, true⟩

/-- Sprite state builder over a layer, tool, brush and pending timer handle. -/
def mkSprite (l : Layer) (tool : Option Tool) (b : Brush) (pending : Option ℕ) :
    SpriteState :=
  { layer := l, bounds := ⟨l.x, l.y, l.width, l.height⟩,
    actionTarget := ActionTarget.source, brush := b, selection := none,
    toolType := tool, toolOptions := some ⟨none, 0⟩, cloneStartCoords := none,
    isPaintMode := true, isDragMode := false, isColorPicker := false,
    isDragging := false, interactive := true, draggable := true,
    pointerX := 0, pointerY := 0, dragStartOffset := ⟨0, 0⟩,
    dragStartEventCoordinates := ⟨0, 0⟩, tempCanvas := false,
    pendingPaintState := pending, orgSourceToStore := none }

/-- An empty world at time 0. -/
def w0 : World := ⟨0, 0, [], []⟩

/-- An idle brush-tool sprite on the plain layer. -/
def sprIdle : SpriteState := mkSprite layerA (some Tool.brush) ⟨false, 0, []⟩ none

/-- A closed two-point selection. -/
def selClosed : Selection := ⟨[⟨1, 1⟩, ⟨2, 2⟩], true⟩

/-- An open selection. -/
def selOpen : Selection := ⟨[⟨1, 1⟩, ⟨2, 2⟩], false⟩

/-! ### C10 — storePaintState with no pending cycle -/

/-- C10: calling storePaintState() when no snapshot cycle is pending returns
true, leaves the whole sprite state and world (history log and timers
included) unchanged, and appends no history entry. -/
theorem storePaintState_noPending (w : World) (s : SpriteState)
    (h : s.pendingPaintState = none) :
    storePaintState w s = (true, w, s) := by
  simp [storePaintState, h]

/-- Witness for C10 at a concrete idle sprite. -/
theorem storePaintState_noPending_witness :
    storePaintState w0 sprIdle = (true, w0, sprIdle) :=
  storePaintState_noPending w0 sprIdle rfl

/-! ### C7 — setSelection stores only closed selections on permitting layers -/

/-- C7: setSelection stores the supplied selection only when its point
sequence is closed (non-empty and marked closed) and the layer permits
selection-constrained drawing; otherwise the call is silently ignored and
the sprite state, the stored selection included, is unchanged. -/
theorem setSelection_requires_closed_and_permitted (s : SpriteState)
    (sel : Option Selection) :
    ((isSelectionClosed sel && canDrawOnSelection s.layer) = true →
       setSelection s sel = { s with selection := sel }) ∧
    ((isSelectionClosed sel && canDrawOnSelection s.layer) = false →
       setSelection s sel = s) := by
  constructor
  · intro h
    simp [setSelection, h]
  · intro h
    simp [setSelection, h]

/-- Witness for C7: a closed selection on a permitting layer is stored; an
open one is ignored with the sprite unchanged. -/
theorem setSelection_requires_closed_and_permitted_witness :
    setSelection sprIdle (some selClosed) =
      { sprIdle with selection := some selClosed } ∧
    setSelection sprIdle (some selOpen) = sprIdle :=
  ⟨(setSelection_requires_closed_and_permitted sprIdle (some selClosed)).1
     (by decide),
   (setSelection_requires_closed_and_permitted sprIdle (some selOpen)).2
     (by decide)⟩

/-! ### C6 — mirroring subtracts the full surface dimension -/

/-- C6: the bulk pointer transform maps each recorded point independently; on
a mirrored axis the full surface dimension (never the half dimension) is
subtracted from the rotated coordinate, while the rotation itself is taken
about the half-dimension centre of the surface; without the mirror flag the
rotated coordinate is kept as is. -/
theorem rotatePointerLists_mirror_full_dimension (pointers : List Point)
    (l : Layer) (sw sh : ℚ) (pt : Point) :
    (rotatePointerLists pointers l sw sh =
       pointers.map (rotatePointerPoint l sw sh)) ∧
    (l.effects.mirrorX = true →
       (rotatePointerPoint l sw sh pt).x =
         (translatePointerRotation (pt.x - l.x) (pt.y - l.y) (sw * (1 / 2))
           (sh * (1 / 2)) l.effects.rotCos l.effects.rotSin).x - sw) ∧
    (l.effects.mirrorY = true →
       (rotatePointerPoint l sw sh pt).y =
         (translatePointerRotation (pt.x - l.x) (pt.y - l.y) (sw * (1 / 2))
           (sh * (1 / 2)) l.effects.rotCos l.effects.rotSin).y - sh) ∧
    (l.effects.mirrorX = false →
       (rotatePointerPoint l sw sh pt).x =
         (translatePointerRotation (pt.x - l.x) (pt.y - l.y) (sw * (1 / 2))
           (sh * (1 / 2)) l.effects.rotCos l.effects.rotSin).x) ∧
    (l.effects.mirrorY = false →
       (rotatePointerPoint l sw sh pt).y =
         (translatePointerRotation (pt.x - l.x) (pt.y - l.y) (sw * (1 / 2))
           (sh * (1 / 2)) l.effects.rotCos l.effects.rotSin).y) := by
  refine ⟨rfl, ?_, ?_, ?_, ?_⟩ <;> intro h <;>
    cases hx : l.effects.mirrorX <;> cases hy : l.effects.mirrorY <;>
      simp_all [rotatePointerPoint]

/-- Witness for C6: the spec's concrete instance — a point at local x = 5 on a
surface of width 100 with mirrorX active maps to x = -95 (the rotated
coordinate is 5, the full width 100 is subtracted). -/
theorem rotatePointerLists_mirror_full_dimension_witness :
    (rotatePointerPoint layerMirX 100 100 ⟨5, 7⟩).x = -95 := by
  have h :=
    (rotatePointerLists_mirror_full_dimension [] layerMirX 100 100 ⟨5, 7⟩).2.1
      rfl
  rw [h]
  norm_num [translatePointerRotation, layerMirX, fxMirX]

/-! ### C8 — the clone tool's two-phase press -/

/-- A clone-tool sprite with no source coordinate set yet. -/
def sprClone : SpriteState :=
  mkSprite layerA (some Tool.clone) ⟨false, 0, []⟩ none

/-- The clone-tool sprite after its source coordinate was set to (5, 5). -/
def sprClone2 : SpriteState :=
  { sprClone with toolOptions := some ⟨some ⟨5, 5⟩, 0⟩ }

/-- C8: with the clone tool active in paint mode and no source coordinate in
the tool options, a press at (x, y) only records (x, y) as the tool options'
source coordinate — no paint is applied and no brush pointer is recorded —
while a subsequent press sets the clone start coordinates and begins the
painting gesture: the brush is marked down and the pointer recorded. -/
theorem handlePress_clone_two_phase (w : World) (s : SpriteState) (x y : ℚ)
    (opts : ToolOptions)
    (hcp : s.isColorPicker = false) (hpm : s.isPaintMode = true)
    (htool : s.toolType = some Tool.clone)
    (hopts : s.toolOptions = some opts) :
    (opts.coords = none →
       handlePress w s x y PtrEventType.mouse =
         Except.ok (w,
           { s with toolOptions := some ⟨some ⟨x, y⟩, opts.sourceLayerId⟩ },
           none)) ∧
    (∀ c, opts.coords = some c → s.cloneStartCoords = none →
       ∃ s', handlePress w s x y PtrEventType.mouse =
           Except.ok (w, s', none) ∧
         s'.cloneStartCoords = some ⟨x, y⟩ ∧
         s'.brush.down = true ∧
         s'.brush.pointers = s.brush.pointers ++ [⟨x, y⟩]) := by
  constructor
  · intro hc
    simp [handlePress, hcp, hpm, htool, hopts, hc]
  · intro c hc hstart
    refine ⟨storeBrushPointer { s with cloneStartCoords := some ⟨x, y⟩ } x y,
      ?_, ?_, ?_, ?_⟩
    · simp [handlePress, hcp, hpm, htool, hopts, hc, hstart]
    · simp [storeBrushPointer]
    · simp [storeBrushPointer]
    · simp [storeBrushPointer]

/-- Witness for C8: the spec's concrete scenario — a first press at (5, 5)
sets the source coordinate without painting; a second press at (20, 20)
begins the gesture. -/
theorem handlePress_clone_two_phase_witness :
    handlePress w0 sprClone 5 5 PtrEventType.mouse =
      Except.ok (w0, { sprClone with toolOptions := some ⟨some ⟨5, 5⟩, 0⟩ },
        none) ∧
    (handlePress w0 sprClone2 20 20 PtrEventType.mouse).map
        (fun r => (r.2.1.cloneStartCoords, r.2.1.brush.down,
          r.2.1.brush.pointers)) =
      Except.ok (some ⟨20, 20⟩, true, [⟨20, 20⟩]) := by
  constructor
  · exact
      (handlePress_clone_two_phase w0 sprClone 5 5 ⟨none, 0⟩ rfl rfl rfl
        rfl).1 rfl
  · obtain ⟨s', hs', h1, h2, h3⟩ :=
      (handlePress_clone_two_phase w0 sprClone2 20 20 ⟨some ⟨5, 5⟩, 0⟩ rfl rfl
        rfl rfl).2 ⟨5, 5⟩ rfl rfl
    rw [hs']
    simp only [Except.map]
    rw [h1, h2, h3]
    rfl

/-! ### C9 — setBounds dimension guard, layer delta and position history -/

/-- C9: setBounds keeps the previous width and height when a zero width or
height is supplied; the layer position always advances by exactly the delta
between the new and the old bounds offset; exactly one position history
entry is appended (and no timer is touched), whose undo restores the old
bounds offset and old layer position and whose redo restores the new
ones. -/
theorem setBounds_position_history (w : World) (s : SpriteState)
    (x y width height : ℚ) :
    ∃ e, (setBounds w s x y width height).1.history = w.history ++ [e] ∧
      (setBounds w s x y width height).1.timers = w.timers ∧
      (width = 0 ∨ height = 0 →
        (setBounds w s x y width height).2.bounds.width = s.bounds.width ∧
        (setBounds w s x y width height).2.bounds.height = s.bounds.height) ∧
      ((setBounds w s x y width height).2.layer.x =
         s.layer.x + (x - s.bounds.left) ∧
       (setBounds w s x y width height).2.layer.y =
         s.layer.y + (y - s.bounds.top)) ∧
      (∀ t : SpriteState,
        (runSpritePosUndo e t).bounds.left = s.bounds.left ∧
        (runSpritePosUndo e t).bounds.top = s.bounds.top ∧
        (runSpritePosUndo e t).layer.x = s.layer.x ∧
        (runSpritePosUndo e t).layer.y = s.layer.y ∧
        (runSpritePosRedo e t).bounds.left = x ∧
        (runSpritePosRedo e t).bounds.top = y ∧
        (runSpritePosRedo e t).layer.x = s.layer.x + (x - s.bounds.left) ∧
        (runSpritePosRedo e t).layer.y = s.layer.y + (y - s.bounds.top)) := by
  refine ⟨HistoryEntry.spritePos s.layer.id s.bounds.left s.bounds.top
    s.layer.x s.layer.y x y (s.layer.x + (x - s.bounds.left))
    (s.layer.y + (y - s.bounds.top)), rfl, rfl, ?_, ⟨rfl, rfl⟩, ?_⟩
  · intro h
    simp only [setBounds]
    rw [if_pos h]
    exact ⟨rfl, rfl⟩
  · intro t
    simp [runSpritePosUndo, runSpritePosRedo]

/-- Witness for C9: a concrete call with zero width and height keeps the
100 by 100 dimensions and advances the layer by the bounds delta. -/
theorem setBounds_position_history_witness :
    (setBounds w0 sprIdle 10 20 0 0).2.bounds.width = 100 ∧
    (setBounds w0 sprIdle 10 20 0 0).2.layer.x = 10 := by
  obtain ⟨e, h1, h2, h3, h4, h5⟩ := setBounds_position_history w0 sprIdle 10 20 0 0
  refine ⟨?_, ?_⟩
  · rw [(h3 (Or.inl rfl)).1]
    rfl
  · rw [h4.1]
    norm_num [sprIdle, mkSprite, layerA]

/-! ### Helper lemmas about the paint compositor -/

theorem bumpTarget_pendingPaintState (b : Bool) (s : SpriteState) :
    (bumpTarget b s).pendingPaintState = s.pendingPaintState := by
  cases b <;> simp [bumpTarget]

theorem bumpTarget_brush (b : Bool) (s : SpriteState) :
    (bumpTarget b s).brush = s.brush := by
  cases b <;> simp [bumpTarget]

theorem bumpTarget_isPaintMode (b : Bool) (s : SpriteState) :
    (bumpTarget b s).isPaintMode = s.isPaintMode := by
  cases b <;> simp [bumpTarget]

theorem storePaintState_preserves_brush (w : World) (s : SpriteState) :
    ((storePaintState w s).2.2).brush = s.brush := by
  cases hp : s.pendingPaintState with
  | none => simp [storePaintState, hp]
  | some tid =>
    cases hd : s.brush.down
    · cases hs : s.layer.source <;>
        simp [storePaintState, hp, hd, hs, debouncePaintStore]
    · simp [storePaintState, hp, hd, debouncePaintStore]

theorem storePaintState_preserves_isPaintMode (w : World) (s : SpriteState) :
    ((storePaintState w s).2.2).isPaintMode = s.isPaintMode := by
  cases hp : s.pendingPaintState with
  | none => simp [storePaintState, hp]
  | some tid =>
    cases hd : s.brush.down
    · cases hs : s.layer.source <;>
        simp [storePaintState, hp, hd, hs, debouncePaintStore]
    · simp [storePaintState, hp, hd, debouncePaintStore]

theorem paintCore_ok_target (w : World) (s : SpriteState) (w' : World)
    (s' : SpriteState) (log : PaintLog)
    (h : paintCore w s = Except.ok (w', s', log)) :
    log.target = (if isMaskable s then PaintTarget.mask else PaintTarget.source) := by
  unfold paintCore at h
  cases hsurf : paintTargetSurface s with
  | none =>
    simp [hsurf] at h
  | some surf =>
    simp only [hsurf] at h
    by_cases hctx : (!surf.hasCtx) = true
    · rw [if_pos hctx] at h
      exact absurd h (by simp)
    · rw [if_neg hctx] at h
      by_cases hfill : s.toolType = some Tool.fill
      · rw [if_pos hfill] at h
        simp only [Except.ok.injEq, Prod.mk.injEq] at h
        rw [← h.2.2]
      · rw [if_neg hfill] at h
        by_cases hclone : s.toolType = some Tool.clone
        · rw [if_pos hclone] at h
          by_cases hdown : s.brush.down = true
          · rw [if_pos hdown] at h
            simp only [Except.ok.injEq, Prod.mk.injEq] at h
            rw [← h.2.2]
          · rw [if_neg hdown] at h
            simp only [Except.ok.injEq, Prod.mk.injEq] at h
            rw [← h.2.2]
        · rw [if_neg hclone] at h
          by_cases hdown : s.brush.down = true
          · rw [if_pos hdown] at h
            simp only [Except.ok.injEq, Prod.mk.injEq] at h
            rw [← h.2.2]
          · rw [if_neg hdown] at h
            simp only [Except.ok.injEq, Prod.mk.injEq] at h
            rw [← h.2.2]

theorem paintCore_ok_state (w : World) (s : SpriteState) (w' : World)
    (s' : SpriteState) (log : PaintLog)
    (h : paintCore w s = Except.ok (w', s', log)) :
    w' = w ∧ s'.pendingPaintState = s.pendingPaintState := by
  unfold paintCore at h
  cases hsurf : paintTargetSurface s with
  | none =>
    simp [hsurf] at h
  | some surf =>
    simp only [hsurf] at h
    by_cases hctx : (!surf.hasCtx) = true
    · rw [if_pos hctx] at h
      exact absurd h (by simp)
    · rw [if_neg hctx] at h
      by_cases hfill : s.toolType = some Tool.fill
      · rw [if_pos hfill] at h
        simp only [Except.ok.injEq, Prod.mk.injEq] at h
        exact ⟨h.1.symm, by rw [← h.2.1, bumpTarget_pendingPaintState]⟩
      · rw [if_neg hfill] at h
        by_cases hclone : s.toolType = some Tool.clone
        · rw [if_pos hclone] at h
          by_cases hdown : s.brush.down = true
          · rw [if_pos hdown] at h
            simp only [Except.ok.injEq, Prod.mk.injEq] at h
            exact ⟨h.1.symm, by rw [← h.2.1, bumpTarget_pendingPaintState]⟩
          · rw [if_neg hdown] at h
            simp only [Except.ok.injEq, Prod.mk.injEq] at h
            exact ⟨h.1.symm, by rw [← h.2.1]⟩
        · rw [if_neg hclone] at h
          by_cases hdown : s.brush.down = true
          · rw [if_pos hdown] at h
            simp only [Except.ok.injEq, Prod.mk.injEq] at h
            exact ⟨h.1.symm, by rw [← h.2.1]⟩
          · rw [if_neg hdown] at h
            simp only [Except.ok.injEq, Prod.mk.injEq] at h
            exact ⟨h.1.symm, by rw [← h.2.1, bumpTarget_pendingPaintState]⟩

theorem paintTargetSurface_prepared (w : World) (s : SpriteState) :
    paintTargetSurface (preparePendingPaintState w s).2 = paintTargetSurface s :=
  rfl

theorem isMaskable_prepared (w : World) (s : SpriteState) :
    isMaskable (preparePendingPaintState w s).2 = isMaskable s :=
  rfl

/-! ### C4 — paint() picks the mask whenever the layer is maskable -/

/-- A clone-tool sprite on the maskable layer whose action target is the
primary source, with a snapshot cycle already pending. -/
def sprC4 : SpriteState :=
  mkSprite layerMasked (some Tool.clone) ⟨false, 0, []⟩ (some 0)

/-- The world carrying sprC4's pending debounce timer. -/
def wC4 : World := ⟨0, 1, [⟨0, 5000⟩], []⟩

/-- The paint log produced by paint() on sprC4. -/
def logC4 : PaintLog := ⟨PaintTarget.mask, false, false, [], false, true⟩

/-- C4 counterexample: on a maskable layer whose current action target is the
primary source, paint() still takes its drawing context from the mask
surface — the claim requires the primary source surface in that case. -/
theorem paint_target_ignores_actionTarget_cex :
    sprC4.actionTarget = ActionTarget.source ∧
    paint wC4 sprC4 = Except.ok (wC4, sprC4, logC4) ∧
    logC4.target = PaintTarget.mask :=
  ⟨rfl, rfl, rfl⟩

/-- C4 (amended): for every invocation of paint() that obtains a drawing
context, the context comes from the layer's mask surface exactly when the
layer is maskable — the current action target is never consulted — and from
the layer's primary source surface otherwise. -/
theorem paint_draw_target_iff_maskable (w : World) (s : SpriteState)
    (w' : World) (s' : SpriteState) (log : PaintLog)
    (h : paint w s = Except.ok (w', s', log)) :
    (log.target = PaintTarget.mask ↔ isMaskable s = true) ∧
    (log.target = PaintTarget.source ↔ isMaskable s = false) := by
  have ht : log.target =
      (if isMaskable s then PaintTarget.mask else PaintTarget.source) := by
    unfold paint at h
    by_cases hp : s.pendingPaintState.isNone = true
    · rw [if_pos hp] at h
      have h2 := paintCore_ok_target _ _ _ _ _ h
      rwa [isMaskable_prepared] at h2
    · rw [if_neg hp] at h
      exact paintCore_ok_target _ _ _ _ _ h
  cases hm : isMaskable s <;> rw [hm] at ht <;> simp [ht, hm]

/-- Witness for C4 at the concrete maskable sprite. -/
theorem paint_draw_target_iff_maskable_witness :
    (logC4.target = PaintTarget.mask ↔ isMaskable sprC4 = true) ∧
    (logC4.target = PaintTarget.source ↔ isMaskable sprC4 = false) :=
  paint_draw_target_iff_maskable wC4 sprC4 wC4 sprC4 logC4 rfl

/-! ### C5 — a missing 2D context throws instead of no-oping -/

/-- A brush sprite on the disposed layer, with no cycle pending. -/
def sprC5 : SpriteState :=
  mkSprite layerDead (some Tool.brush) ⟨false, 0, []⟩ none

/-- The sprite state at throw time: the pending paint-state preparation has
already stored the encoded original source and armed the debounce. -/
def sprC5e : SpriteState :=
  { sprC5 with orgSourceToStore := sprC5.layer.source.map Surface.content,
               pendingPaintState := some w0.nextTimerId }

/-- The world at throw time: the debounce timer is armed. -/
def wC5e : World :=
  ⟨w0.now, w0.nextTimerId + 1,
   w0.timers ++ [⟨w0.nextTimerId, w0.now + 5000⟩], w0.history⟩

theorem paintCore_missing_context (w : World) (s : SpriteState)
    (surf : Surface) (hsurf : paintTargetSurface s = some surf)
    (hctx : surf.hasCtx = false) :
    paintCore w s = Except.error (JsError.missingContext w s) := by
  unfold paintCore
  rw [hsurf]
  simp [hctx]

/-- C5 counterexample: a paint() whose chosen draw target (the source surface
of a disposed layer) has no live 2D context throws instead of completing as
a silent no-op, and by throw time the pending paint-state preparation has
already modified the sprite state and armed a host timer. -/
theorem paint_missing_context_not_noop_cex :
    paint w0 sprC5 = Except.error (JsError.missingContext wC5e sprC5e) ∧
    wC5e.timers.length ≠ w0.timers.length ∧
    sprC5e.pendingPaintState ≠ sprC5.pendingPaintState := by
  refine ⟨rfl, by decide, by decide⟩

/-- C5 (amended): when the chosen draw target has no live 2D context, paint()
throws (the JS context dereference fails) rather than completing as a silent
no-op; when no snapshot cycle was pending, the pending paint-state
preparation has by then already stored the encoded source and armed the
debounce timer, so sprite and world state are modified; with a cycle already
pending the throw happens before any state change. -/
theorem paint_missing_context_throws (w : World) (s : SpriteState)
    (surf : Surface)
    (hsurf : paintTargetSurface s = some surf)
    (hctx : surf.hasCtx = false) :
    (s.pendingPaintState = none →
       paint w s = Except.error (JsError.missingContext
         ⟨w.now, w.nextTimerId + 1,
          w.timers ++ [⟨w.nextTimerId, w.now + 5000⟩], w.history⟩
         { s with orgSourceToStore := s.layer.source.map Surface.content,
                  pendingPaintState := some w.nextTimerId })) ∧
    (∀ tid, s.pendingPaintState = some tid →
       paint w s = Except.error (JsError.missingContext w s)) := by
  constructor
  · intro hp
    have hn : s.pendingPaintState.isNone = true := by simp [hp]
    unfold paint
    rw [if_pos hn]
    exact paintCore_missing_context _ _ surf hsurf hctx
  · intro tid hp
    have hn : ¬ s.pendingPaintState.isNone = true := by simp [hp]
    unfold paint
    rw [if_neg hn]
    exact paintCore_missing_context _ _ surf hsurf hctx

/-- Witness for C5 at the concrete disposed-layer sprite. -/
theorem paint_missing_context_throws_witness :
    paint w0 sprC5 = Except.error (JsError.missingContext wC5e sprC5e) := by
  have h := (paint_missing_context_throws w0 sprC5 surfDead rfl rfl).1 rfl
  exact h

/-! ### C1 — the final render on release consumes the full pointer list -/

theorem paint_of_pending_none (w : World) (s : SpriteState)
    (h : s.pendingPaintState.isNone = true) :
    paint w s = paintCore (preparePendingPaintState w s).1
      (preparePendingPaintState w s).2 := by
  unfold paint
  rw [if_pos h]

theorem paint_of_pending_some (w : World) (s : SpriteState)
    (h : ¬ s.pendingPaintState.isNone = true) :
    paint w s = paintCore w s := by
  unfold paint
  rw [if_neg h]

theorem forceMoveListener_brush (s : SpriteState) :
    (forceMoveListener s).brush = s.brush :=
  rfl

theorem paintCore_release_render (w : World) (s : SpriteState) (surf : Surface)
    (hdown : s.brush.down = false) (hlast : s.brush.last = 0)
    (hfill : ¬ s.toolType = some Tool.fill)
    (hclone : ¬ s.toolType = some Tool.clone)
    (hsurf : paintTargetSurface s = some surf) (hctx : surf.hasCtx = true) :
    paintCore w s = Except.ok (w,
      bumpTarget (isMaskable s)
        { s with brush := { s.brush with pointers :=
            (rotatePointerLists s.brush.pointers s.layer surf.width
              surf.height) } },
      ⟨(if isMaskable s then PaintTarget.mask else PaintTarget.source),
       decide (s.toolType = some Tool.eraser), s.selection.isSome,
       rotatePointerLists s.brush.pointers s.layer surf.width surf.height,
       false, true⟩) := by
  unfold paintCore
  simp only [hsurf]
  rw [if_neg (show ¬ (!surf.hasCtx) = true by simp [hctx])]
  rw [if_neg hfill, if_neg hclone]
  rw [if_neg (show ¬ s.brush.down = true by simp [hdown])]
  simp [renderBrushStrokePoints, hlast]

theorem handleReleaseTail_log (lm : Bool) (w2 : World) (s2 : SpriteState)
    (log : PaintLog) :
    (handleReleaseTail lm w2 s2 log).2.2 = some log :=
  rfl

theorem handleReleaseTail_brush_pointers (lm : Bool) (w2 : World)
    (s2 : SpriteState) (log : PaintLog) :
    (handleReleaseTail lm w2 s2 log).2.1.brush.pointers = [] := by
  unfold handleReleaseTail
  dsimp only
  repeat' split
  all_goals
    simp [forceMoveListener, storePaintState_preserves_brush]

/-- C1: releasing an active brush or eraser stroke performs the final
full-resolution render over the complete ordered pointer list accumulated
since press — the `last` cursor is reset to 0 before the final paint(), so
the renderer consumes every recorded point (transformed into layer space,
order preserved, none skipped) directly at full resolution — and the pointer
list is cleared only after that final render: the post-release state holds
no pointers while the final render's consumed list holds them all. -/
theorem handleRelease_consumes_full_pointer_list (lowMemory : Bool)
    (w : World) (s : SpriteState) (surf : Surface)
    (hdown : s.brush.down = true)
    (htool : s.toolType = some Tool.brush ∨ s.toolType = some Tool.eraser)
    (hsurf : paintTargetSurface s = some surf)
    (hctx : surf.hasCtx = true) :
    ∃ r, handleRelease lowMemory w s = Except.ok r ∧
      r.2.2.map PaintLog.consumed =
        some (rotatePointerLists s.brush.pointers s.layer surf.width
          surf.height) ∧
      r.2.2.map PaintLog.lowRes = some false ∧
      r.2.1.brush.pointers = [] := by
  have hfill : ¬ s.toolType = some Tool.fill := by
    rcases htool with h | h <;> simp [h]
  have hclone : ¬ s.toolType = some Tool.clone := by
    rcases htool with h | h <;> simp [h]
  unfold handleRelease
  rw [if_pos hdown]
  by_cases hp : s.pendingPaintState.isNone = true
  · have hpaint := paintCore_release_render
      (preparePendingPaintState w
        { s with tempCanvas := false,
                 brush := { s.brush with down := false, last := 0 } }).1
      (preparePendingPaintState w
        { s with tempCanvas := false,
                 brush := { s.brush with down := false, last := 0 } }).2
      surf rfl rfl hfill hclone hsurf hctx
    rw [paint_of_pending_none w
      { s with tempCanvas := false,
               brush := { s.brush with down := false, last := 0 } } hp, hpaint]
    simp only [Except.map]
    refine ⟨_, rfl, ?_, ?_, ?_⟩
    · rw [handleReleaseTail_log]
      rfl
    · rw [handleReleaseTail_log]
      rfl
    · exact handleReleaseTail_brush_pointers _ _ _ _
  · have hpaint := paintCore_release_render w
      { s with tempCanvas := false,
               brush := { s.brush with down := false, last := 0 } }
      surf rfl rfl hfill hclone hsurf hctx
    rw [paint_of_pending_some w
      { s with tempCanvas := false,
               brush := { s.brush with down := false, last := 0 } } hp, hpaint]
    simp only [Except.map]
    refine ⟨_, rfl, ?_, ?_, ?_⟩
    · rw [handleReleaseTail_log]
      rfl
    · rw [handleReleaseTail_log]
      rfl
    · exact handleReleaseTail_brush_pointers _ _ _ _

/-- A mid-stroke brush sprite holding three recorded pointers. -/
def sprC1 : SpriteState :=
  mkSprite layerA (some Tool.brush) ⟨true, 2, [⟨1, 1⟩, ⟨2, 2⟩, ⟨3, 3⟩]⟩ none

/-- Witness for C1: a release over three recorded pointers (of which the live
preview has already consumed two) renders all three and clears the list. -/
theorem handleRelease_consumes_full_pointer_list_witness :
    (handleRelease false w0 sprC1).map
        (fun r => (r.2.2.map PaintLog.consumed, r.2.1.brush.pointers)) =
      Except.ok (some (rotatePointerLists sprC1.brush.pointers sprC1.layer
        100 100), ([] : List Point)) := by
  obtain ⟨r, heq, hcons, hlow, hptr⟩ :=
    handleRelease_consumes_full_pointer_list false w0 sprC1 surfA rfl
      (Or.inl rfl) rfl rfl
  rw [heq]
  simp only [Except.map]
  rw [hcons, hptr]
  rfl

/-! ### Shared characterizations of storePaintState on a pending cycle -/

theorem storePaintState_commit (w : World) (s : SpriteState) (tid : ℕ)
    (src : Surface)
    (hpend : s.pendingPaintState = some tid)
    (hdown : s.brush.down = false)
    (hsrc : s.layer.source = some src) :
    storePaintState w s =
      (true,
       ⟨w.now, w.nextTimerId, w.timers.filter (fun t => t.id ≠ tid),
        w.history ++ [HistoryEntry.paintState s.layer.id s.orgSourceToStore
          src.content]⟩,
       { s with pendingPaintState := none, orgSourceToStore := none }) := by
  unfold storePaintState
  rw [hpend]
  dsimp only
  rw [if_neg (show ¬ s.brush.down = true by simp [hdown])]
  rw [hsrc]

theorem storePaintState_redebounce (w : World) (s : SpriteState) (tid : ℕ)
    (hpend : s.pendingPaintState = some tid)
    (hdown : s.brush.down = true) :
    storePaintState w s =
      (false,
       ⟨w.now, w.nextTimerId + 1,
        w.timers.filter (fun t => t.id ≠ tid) ++
          [⟨w.nextTimerId, w.now + 1000⟩],
        w.history⟩,
       { s with pendingPaintState := some w.nextTimerId }) := by
  unfold storePaintState
  rw [hpend]
  dsimp only
  rw [if_pos hdown]
  rfl

/-! ### C2 — the debounced snapshot cycle -/

/-- A brush sprite with a pending snapshot cycle, an idle brush and the
encoded original source in hand. -/
def sprC2 : SpriteState :=
  { (mkSprite layerA (some Tool.brush) ⟨false, 0, []⟩ (some 0)) with
    orgSourceToStore := some 10 }

/-- The world carrying sprC2's armed debounce timer. -/
def wC2p : World := ⟨50, 1, [⟨0, 5000⟩], []⟩

/-- A mid-stroke brush sprite with a pending snapshot cycle. -/
def sprC2ce : SpriteState :=
  mkSprite layerA (some Tool.brush) ⟨true, 0, [⟨1, 1⟩]⟩ (some 0)

/-- A world in which sprC2ce's pending timer is armed with deadline 300. -/
def wC2ce : World := ⟨400, 1, [⟨0, 300⟩], []⟩

/-- C2 counterexample: an edit (a paint() call) arriving while a snapshot
cycle is pending leaves the armed timer exactly as it was — its deadline is
extended neither by the 5000 ms nor by the 1000 ms debounce interval — so
the claim's assertion that an in-cycle edit re-arms the timer fails on the
code; paint() only skips the preparation when a cycle is pending. -/
theorem paint_pending_edit_no_rearm_cex :
    (paint wC2ce sprC2ce).map (fun r => r.1.timers) =
      Except.ok [(⟨0, 300⟩ : Timer)] ∧
    (300 : ℚ) ≠ wC2ce.now + 5000 ∧ (300 : ℚ) ≠ wC2ce.now + 1000 := by
  refine ⟨rfl, ?_, ?_⟩ <;> norm_num [wC2ce]

/-- C2 (amended): with one snapshot cycle pending (its single timer armed),
an edit (a paint() call) neither starts a second cycle nor touches the timer
list or the history log — it does not re-arm the timer; when the cycle
commits (storePaintState with the stroke ended) exactly one history entry is
appended — never zero, never more than one — and the pending state and timer
are cleared; when the timer fires while the stroke is still active nothing
is committed and exactly one replacement timer is armed. So at most one
pending cycle ever exists for the layer, and each cycle eventually commits
exactly one entry once the stroke has ended. -/
theorem debounce_cycle_behaviour (w : World) (s : SpriteState)
    (tid : ℕ) (d : ℚ) (src : Surface)
    (hpend : s.pendingPaintState = some tid)
    (htimers : w.timers = [⟨tid, d⟩])
    (hsrc : s.layer.source = some src) :
    (∀ w' s' log, paint w s = Except.ok (w', s', log) →
       w' = w ∧ s'.pendingPaintState = some tid) ∧
    (s.brush.down = false →
       storePaintState w s =
         (true,
          ⟨w.now, w.nextTimerId, [],
           w.history ++ [HistoryEntry.paintState s.layer.id s.orgSourceToStore
             src.content]⟩,
          { s with pendingPaintState := none, orgSourceToStore := none })) ∧
    (s.brush.down = true →
       storePaintState w s =
         (false,
          ⟨w.now, w.nextTimerId + 1, [⟨w.nextTimerId, w.now + 1000⟩],
           w.history⟩,
          { s with pendingPaintState := some w.nextTimerId })) := by
  refine ⟨?_, ?_, ?_⟩
  · intro w' s' log h
    have hn : ¬ s.pendingPaintState.isNone = true := by simp [hpend]
    rw [paint_of_pending_some _ _ hn] at h
    have h2 := paintCore_ok_state _ _ _ _ _ h
    exact ⟨h2.1, by rw [h2.2, hpend]⟩
  · intro hdown
    rw [storePaintState_commit w s tid src hpend hdown hsrc, htimers]
    simp
  · intro hdown
    rw [storePaintState_redebounce w s tid hpend hdown, htimers]
    simp

/-- Witness for C2: the concrete pending cycle commits exactly one entry. -/
theorem debounce_cycle_behaviour_witness :
    storePaintState wC2p sprC2 =
      (true, ⟨50, 1, [], [HistoryEntry.paintState 1 (some 10) 10]⟩,
       { sprC2 with pendingPaintState := none, orgSourceToStore := none }) :=
  (debounce_cycle_behaviour wC2p sprC2 0 5000 surfA rfl rfl rfl).2.1 rfl

/-! ### C3 — lowMemory defers, not accelerates, the release commit -/

theorem bumpTarget_false (s : SpriteState) :
    bumpTarget false s =
      { s with layer := { s.layer with
          source := s.layer.source.map bumpSurface } } := by
  simp [bumpTarget]

/-- A mid-stroke brush sprite with a pending snapshot cycle and the encoded
original source in hand. -/
def sprC3 : SpriteState :=
  { (mkSprite layerA (some Tool.brush) ⟨true, 0, [⟨1, 1⟩]⟩ (some 0)) with
    orgSourceToStore := some 10 }

/-- The world carrying sprC3's armed debounce timer. -/
def wC3 : World := ⟨0, 1, [⟨0, 5000⟩], []⟩

/-- C3 counterexample: with the reduced-memory preference SET, releasing the
brush stroke commits nothing — the history log stays empty and the pending
cycle survives the release — while with the preference UNSET the very same
release synchronously commits exactly one entry and clears the pending
state. The claim states the opposite condition. -/
theorem handleRelease_lowMemory_inverted_cex :
    (handleRelease true wC3 sprC3).map
        (fun r => (r.1.history, r.2.1.pendingPaintState)) =
      Except.ok (([] : List HistoryEntry), some 0) ∧
    (handleRelease false wC3 sprC3).map
        (fun r => (r.1.history, r.2.1.pendingPaintState)) =
      Except.ok ([HistoryEntry.paintState 1 (some 10) 11], none) := by
  constructor <;> rfl

theorem handleReleaseTail_commit (w2 : World) (s2 : SpriteState)
    (log : PaintLog) (tid : ℕ) (src' : Surface)
    (hpend2 : s2.pendingPaintState = some tid)
    (hdown2 : s2.brush.down = false)
    (hsrc2 : s2.layer.source = some src') :
    (handleReleaseTail false w2 s2 log).1.history =
      w2.history ++ [HistoryEntry.paintState s2.layer.id s2.orgSourceToStore
        src'.content] ∧
    (handleReleaseTail false w2 s2 log).2.1.pendingPaintState = none := by
  unfold handleReleaseTail
  dsimp only
  rw [if_pos (show (!false) = true from rfl)]
  rw [storePaintState_commit w2
    { s2 with brush := { s2.brush with pointers := [] } } tid src'
    hpend2 hdown2 hsrc2]
  constructor
  · rfl
  · dsimp only
    split <;> rfl

theorem handleReleaseTail_lowMemory (w2 : World) (s2 : SpriteState)
    (log : PaintLog) :
    (handleReleaseTail true w2 s2 log).1 = w2 ∧
    (handleReleaseTail true w2 s2 log).2.1.pendingPaintState =
      s2.pendingPaintState := by
  unfold handleReleaseTail
  dsimp only
  rw [if_neg (show ¬ (!true) = true from by simp)]
  constructor
  · rfl
  · split <;> rfl

/-- C3 (amended): completing a brush stroke commits the pending paint history
state synchronously on release exactly when the host is NOT configured for
reduced memory use: with the lowMemory preference unset, the release appends
the cycle's single history entry (the post-stroke source as the new state)
and clears the pending state; with the preference set, nothing is committed
on release — the history log and the armed timers are untouched and the
pending cycle survives, waiting for the debounce window. -/
theorem handleRelease_commit_iff_not_lowMemory (w : World) (s : SpriteState)
    (tid : ℕ) (src : Surface)
    (hdown : s.brush.down = true)
    (htool : s.toolType = some Tool.brush)
    (hpend : s.pendingPaintState = some tid)
    (hmask : s.layer.mask = none)
    (hsrc : s.layer.source = some src)
    (hctx : src.hasCtx = true) :
    (∃ r, handleRelease false w s = Except.ok r ∧
       r.1.history = w.history ++
         [HistoryEntry.paintState s.layer.id s.orgSourceToStore
           (bumpSurface src).content] ∧
       r.2.1.pendingPaintState = none) ∧
    (∃ r, handleRelease true w s = Except.ok r ∧
       r.1.history = w.history ∧ r.1.timers = w.timers ∧
       r.2.1.pendingPaintState = some tid) := by
  have hsurf : paintTargetSurface s = some src := by
    simp [paintTargetSurface, isMaskable, hmask, hsrc]
  have hm1 : isMaskable
      { s with tempCanvas := false,
               brush := { s.brush with down := false, last := 0 } } = false := by
    simp [isMaskable, hmask]
  have hfill : ¬ s.toolType = some Tool.fill := by simp [htool]
  have hclone : ¬ s.toolType = some Tool.clone := by simp [htool]
  have hp : ¬ (SpriteState.pendingPaintState
      { s with tempCanvas := false,
               brush := { s.brush with down := false, last := 0 } }).isNone
        = true := by
    simp [hpend]
  have hsrc3 : Option.map bumpSurface s.layer.source =
      some (bumpSurface src) := by
    rw [hsrc]
    rfl
  have hpaint := paintCore_release_render w
    { s with tempCanvas := false,
             brush := { s.brush with down := false, last := 0 } }
    src rfl rfl hfill hclone hsurf hctx
  rw [hm1, bumpTarget_false] at hpaint
  constructor
  · unfold handleRelease
    rw [if_pos hdown]
    rw [paint_of_pending_some w
      { s with tempCanvas := false,
               brush := { s.brush with down := false, last := 0 } } hp, hpaint]
    simp only [Except.map]
    refine ⟨_, rfl, ?_, ?_⟩
    · refine (handleReleaseTail_commit _ _ _ tid (bumpSurface src)
        ?_ ?_ ?_).1
      · exact hpend
      · rfl
      · exact hsrc3
    · refine (handleReleaseTail_commit _ _ _ tid (bumpSurface src)
        ?_ ?_ ?_).2
      · exact hpend
      · rfl
      · exact hsrc3
  · unfold handleRelease
    rw [if_pos hdown]
    rw [paint_of_pending_some w
      { s with tempCanvas := false,
               brush := { s.brush with down := false, last := 0 } } hp, hpaint]
    simp only [Except.map]
    refine ⟨_, rfl, ?_, ?_, ?_⟩
    · exact congrArg World.history (handleReleaseTail_lowMemory _ _ _).1
    · exact congrArg World.timers (handleReleaseTail_lowMemory _ _ _).1
    · rw [(handleReleaseTail_lowMemory _ _ _).2]
      exact hpend

/-- Witness for C3 at the concrete mid-stroke sprite: with lowMemory unset
the release commits the entry; with it set the pending cycle survives. -/
theorem handleRelease_commit_iff_not_lowMemory_witness :
    (handleRelease false wC3 sprC3).map (fun r => r.1.history) =
      Except.ok [HistoryEntry.paintState 1 (some 10) 11] ∧
    (handleRelease true wC3 sprC3).map (fun r => r.2.1.pendingPaintState) =
      Except.ok (some 0) := by
  obtain ⟨⟨r1, h1, hh1, hp1⟩, ⟨r2, h2, hh2, ht2, hp2⟩⟩ :=
    handleRelease_commit_iff_not_lowMemory wC3 sprC3 0 surfA rfl rfl rfl rfl
      rfl rfl
  constructor
  · rw [h1]
    simp only [Except.map]
    rw [hh1]
    rfl
  · rw [h2]
    simp only [Except.map]
    rw [hp2]

end Bitmappery
